import Mathlib

/-!
# DockTiles (`app/main.py`) — shallow embedding and verification

This file embeds the decision-making core of the DockTiles dashboard
(`app/main.py`) in Lean 4 and proves the specified properties about it:

* `require_auth` — the optional bearer-token access gate;
* the `start`/`stop`/`restart` action endpoints gated by `ALLOW_ACTIONS`;
* `_extract_published_ports` — projection of the runtime's port-binding map;
* `_dto` — the container view-model builder (image-field fallback chain);
* `_find_first_http_port` — the HTTP-port preference heuristic;
* `container_logs` — tail default and best-effort UTF-8 decoding.

Python dict lookups with defaults (`d.get(k, v)`) are modelled with
`Option` fields (`none` = key absent); Python exceptions become `Except`
results; the module-level configuration globals (`JWT_SECRET`,
`ALLOW_ACTIONS`, `PORT_HINTS`) become explicit parameters.
-/

set_option autoImplicit false

namespace DockTiles

/-- An HTTP error response raised via FastAPI's `HTTPException`. -/
structure HTTPException where
  status : Nat
  detail : String
  deriving DecidableEq, Repr

deriving instance DecidableEq for Except

/-- Python `s.lower()` (ASCII range, which covers the `"bearer "`
scheme comparison in the source). -/
def pyLower (s : String) : String :=
  String.mk (s.data.map Char.toLower)

/-- Python `s.startswith(prefix)`. -/
def pyStartsWith (pre s : String) : Bool :=
  pre.data.isPrefixOf s.data

/-- Remainder of a string after its first space character, i.e. the
Python expression `s.split(" ", 1)[1]` (total: returns `""` when the
string has no space, a case the caller never reaches). -/
def afterFirstSpace (s : String) : String :=
  match s.data.dropWhile (fun c => c ≠ ' ') with
  | [] => ""
  | _ :: t => String.mk t

/-- The access gate `require_auth(request)`.

`secret` is the value of `JWT_SECRET = os.getenv("DOCKTILES_JWT_SECRET")`
(`none` = variable unset); `header` is the request's `Authorization`
header (`none` = header absent).  Mirrors the source: a falsy secret
(unset or empty) disables auth; a missing, empty or non-bearer header is
a 401; a bearer header whose token (everything after the first space of
the original header) differs from the secret is a 403. -/
def require_auth (secret : Option String) (header : Option String) :
    Except HTTPException Unit :=
  match secret with
  | none => .ok ()
  | some s =>
    if s = "" then .ok ()       -- `if not JWT_SECRET: return` (empty string is falsy)
    else
      match header with
      | none => .error ⟨401, "Missing bearer token"⟩
      | some auth =>
        if auth = "" then .error ⟨401, "Missing bearer token"⟩
        else if ¬ (pyStartsWith "bearer " (pyLower auth)) then
          .error ⟨401, "Missing bearer token"⟩
        else if afterFirstSpace auth ≠ s then .error ⟨403, "Invalid token"⟩
        else .ok ()

/-- One published host binding in a container view (`PortInfo` model). -/
structure PortInfo where
  host : String
  port : Int
  deriving DecidableEq, Repr

/-- The port-preference heuristic `_find_first_http_port(ports)`.

`hints` is the module global `PORT_HINTS`.  The list comprehension
`[p for hint in PORT_HINTS for p in ports if str(p.port) == hint]`
iterates hints in the outer loop and ports in the inner loop. -/
def _find_first_http_port (hints : List String) (ports : List PortInfo) :
    Option PortInfo :=
  if ports.isEmpty then none
  else
    let hinted := (hints.map (fun hint =>
      ports.filter (fun p => toString p.port == hint))).flatten
    match hinted with
    | h :: _ => some h
    | [] => ports.head?

/-- Python `str.strip()` restricted to ASCII whitespace. -/
def pyStrip (s : String) : String :=
  String.mk (((s.data.dropWhile Char.isWhitespace).reverse.dropWhile
    Char.isWhitespace).reverse)

/-- Split a character list on a separator character (each occurrence
starts a new chunk; `splitCharList ',' "".data = [[]]`, matching
Python's `"".split(",") == [""]`). -/
def splitCharList (sep : Char) (acc : List Char) : List Char → List (List Char)
  | [] => [acc.reverse]
  | c :: rest =>
    if c = sep then acc.reverse :: splitCharList sep [] rest
    else splitCharList sep (c :: acc) rest

/-- Python `s.split(sep)` for a one-character separator. -/
def pySplit (sep : Char) (s : String) : List String :=
  (splitCharList sep [] s.data).map String.mk

/-- `PORT_HINTS` computed from the default value of
`DOCKTILES_HTTP_SCHEMES`: split on commas, strip each part, drop empty
parts. -/
def PORT_HINTS : List String :=
  ((pySplit ',' "8080,3000,80,5000,8000,8888,9090").map
    pyStrip).filter (fun p => p ≠ "")

/-! ## Python `int(str)` -/

/-- Digit-string value: a run of decimal digits in which single
underscores may separate digits (`"1_0"` is valid, `"1__0"`, `"1_"`
are not), as accepted by Python's `int` after the optional sign.
`acc` is the value of the digits already consumed. -/
def pyDigits (acc : Nat) : List Char → Option Nat
  | [] => some acc
  | '_' :: c :: rest =>
    if c.isDigit then pyDigits (acc * 10 + (c.toNat - '0'.toNat)) rest
    else none
  | '_' :: [] => none
  | c :: rest =>
    if c.isDigit then pyDigits (acc * 10 + (c.toNat - '0'.toNat)) rest
    else none

/-- Python `int(s)` for a decimal string: optional surrounding
whitespace, optional sign, then a non-empty digit run (with optional
single underscores); `none` models a raised `ValueError`. -/
def pyInt (s : String) : Option Int :=
  match (pyStrip s).data with
  | '+' :: c :: rest =>
    if c.isDigit then (pyDigits (c.toNat - '0'.toNat) rest).map Int.ofNat
    else none
  | '-' :: c :: rest =>
    if c.isDigit then (pyDigits (c.toNat - '0'.toNat) rest).map
      (fun n => -(n : Int))
    else none
  | c :: rest =>
    if c.isDigit then (pyDigits (c.toNat - '0'.toNat) rest).map Int.ofNat
    else none
  | [] => none

/-! ## Port extraction (`_extract_published_ports`) -/

/-- One raw host-binding record from the runtime, e.g.
`{'HostIp': '0.0.0.0', 'HostPort': '8080'}`; `none` = key absent. -/
structure RawBinding where
  hostIp : Option String
  hostPort : Option String
  deriving DecidableEq, Repr

/-- The runtime's `NetworkSettings.Ports` mapping in reported order:
internal port key (e.g. `"80/tcp"`) paired with its binding list, which
the runtime reports as absent/null (`none`) or as a list. -/
abbrev PortMap := List (String × Option (List RawBinding))

/-- The body of the inner loop of `_extract_published_ports`: the
`PortInfo` appended for binding `b`, or `none` when
`int(b.get("HostPort"))` raises (`TypeError` on a missing key,
`ValueError` on a non-integer string) and the binding is skipped.
The host defaults to `"127.0.0.1"` when `HostIp` is absent. -/
def bindingPortInfo (b : RawBinding) : Option PortInfo :=
  match b.hostPort with
  | none => none
  | some s =>
    match pyInt s with
    | none => none
    | some port => some ⟨b.hostIp.getD "127.0.0.1", port⟩

/-- `_extract_published_ports(c)`, written as the source's double loop
over the port map with an accumulating `ports` list. -/
def _extract_published_ports (portMap : PortMap) : List PortInfo :=
  portMap.foldl
    (fun ports kv =>
      match kv.2 with
      | none => ports                     -- `if not bindings: continue`
      | some [] => ports
      | some bs =>
        bs.foldl
          (fun ps b =>
            match bindingPortInfo b with
            | none => ps                  -- except (TypeError, ValueError): continue
            | some p => ps ++ [p])
          ports)
    []

/-! ## View-model builder (`_dto`) -/

/-- The slice of a `docker` SDK `Image` object the builder reads. -/
structure ImageRecord where
  tags : List String
  short_id : String
  deriving DecidableEq, Repr

/-- The slice of a reloaded `Container` object the builder reads.
`attrs`-derived fields are `Option` (`none` = key path absent). -/
structure ContainerRecord where
  short_id : String
  name : String
  status : String
  attrsStateStatus : Option String   -- attrs["State"]["Status"]
  attrsConfigImage : Option String   -- attrs["Config"]["Image"]
  image : ImageRecord
  networkPorts : PortMap             -- attrs["NetworkSettings"]["Ports"]
  deriving DecidableEq, Repr

/-- The container view (`ContainerDTO` model). -/
structure ContainerDTO where
  id : String
  name : String
  image : String
  status : String
  state : String
  ports : List PortInfo
  deriving DecidableEq, Repr

/-- `_dto(c)`: project a (reloaded) container record.  The image field
is `c.attrs.get("Config", {}).get("Image", ...)`: the fallback
(`c.image.tags[0] if c.image.tags else c.image.short_id`) applies only
when the `Image` key is absent. -/
def _dto (c : ContainerRecord) : ContainerDTO :=
  { id := c.short_id
    name := c.name
    image := c.attrsConfigImage.getD
      (match c.image.tags with
       | t :: _ => t
       | [] => c.image.short_id)
    status := c.status
    state := c.attrsStateStatus.getD "unknown"
    ports := _extract_published_ports c.networkPorts }

/-! ## Action endpoints -/

/-- Outcome of the lookup `_docker_client.containers.get(name)` and the
subsequent runtime action, as seen by the endpoint: `none` = both
succeed, `some e` = the docker SDK raises `e` (e.g. `NotFound`). -/
inductive RuntimeErr
  | notFound
  | apiError
  deriving DecidableEq, Repr

/-- An action endpoint's response. -/
inductive ActionResponse
  | okTrue                        -- the JSON body `{"ok": true}`
  | httpError (e : HTTPException)
  | runtimeError (e : RuntimeErr) -- a docker SDK exception propagating
  deriving DecidableEq, Repr

/-- `POST /containers/{name}/start`.  FastAPI evaluates the
`Depends(require_auth)` dependency before the handler body runs; the
`ALLOW_ACTIONS` check comes next, and only then the runtime is touched.
Returns the response paired with whether `c.start()` was invoked. -/
def start_container (secret header : Option String) (allowActions : Bool)
    (runtime : Option RuntimeErr) : ActionResponse × Bool :=
  match require_auth secret header with
  | .error e => (.httpError e, false)
  | .ok _ =>
    if ¬ allowActions then (.httpError ⟨403, "Actions disabled"⟩, false)
    else
      match runtime with
      | some e => (.runtimeError e, false)
      | none => (.okTrue, true)

/-- `POST /containers/{name}/stop`; the handler body is identical to
`start_container` except that it invokes `c.stop()`. -/
def stop_container (secret header : Option String) (allowActions : Bool)
    (runtime : Option RuntimeErr) : ActionResponse × Bool :=
  match require_auth secret header with
  | .error e => (.httpError e, false)
  | .ok _ =>
    if ¬ allowActions then (.httpError ⟨403, "Actions disabled"⟩, false)
    else
      match runtime with
      | some e => (.runtimeError e, false)
      | none => (.okTrue, true)

/-- `POST /containers/{name}/restart`; the handler body is identical to
`start_container` except that it invokes `c.restart()`. -/
def restart_container (secret header : Option String) (allowActions : Bool)
    (runtime : Option RuntimeErr) : ActionResponse × Bool :=
  match require_auth secret header with
  | .error e => (.httpError e, false)
  | .ok _ =>
    if ¬ allowActions then (.httpError ⟨403, "Actions disabled"⟩, false)
    else
      match runtime with
      | some e => (.runtimeError e, false)
      | none => (.okTrue, true)

/-! ## Logs endpoint (`container_logs`) -/

/-- Is `b` a UTF-8 continuation byte (`0x80..0xBF`)? -/
def isCont (b : UInt8) : Bool := 0x80 ≤ b && b < 0xC0

/-- Valid range for the second byte of a multi-byte UTF-8 sequence with
lead byte `b` (CPython rejects overlong encodings, surrogates and
codepoints above `U+10FFFF` at the second byte). -/
def validSecond (b b1 : UInt8) : Bool :=
  if b = 0xE0 then 0xA0 ≤ b1 && b1 ≤ 0xBF
  else if b = 0xED then 0x80 ≤ b1 && b1 ≤ 0x9F
  else if b = 0xF0 then 0x90 ≤ b1 && b1 ≤ 0xBF
  else if b = 0xF4 then 0x80 ≤ b1 && b1 ≤ 0x8F
  else isCont b1

/-- CPython's UTF-8 decoder loop, producing the decoded codepoints.
With `ignore = false` (`errors="strict"`) an invalid or truncated
sequence yields `none`, modelling a raised `UnicodeDecodeError`; with
`ignore = true` (`errors="ignore"`) invalid bytes are dropped and
decoding continues at the next byte.  The `fuel` argument only makes
the recursion structural: every step consumes at least one byte, so
with `fuel` initialised to the byte count (see `pyDecodeUtf8`) the
`0, _ :: _` case is never reached.  (On malformed input the model
resynchronises at the byte after the lead byte rather than after
CPython's maximal invalid subpart; stray continuation bytes are then
skipped one by one, so the ignore-mode output agrees.) -/
def pyDecodeUtf8Fuel (ignore : Bool) : Nat → List UInt8 → Option (List Nat)
  | _, [] => some []
  | 0, _ :: _ => some []
  | fuel + 1, b :: rest =>
    if b < 0x80 then
      (pyDecodeUtf8Fuel ignore fuel rest).map (fun cs => b.toNat :: cs)
    else if b < 0xC2 then
      -- stray continuation byte or overlong lead 0xC0/0xC1
      if ignore then pyDecodeUtf8Fuel ignore fuel rest else none
    else if b < 0xE0 then
      match rest with
      | b1 :: rest1 =>
        if isCont b1 then
          (pyDecodeUtf8Fuel ignore fuel rest1).map (fun cs =>
            ((b.toNat - 0xC0) * 0x40 + (b1.toNat - 0x80)) :: cs)
        else if ignore then pyDecodeUtf8Fuel ignore fuel (b1 :: rest1)
        else none
      | [] => if ignore then some [] else none
    else if b < 0xF0 then
      match rest with
      | b1 :: b2 :: rest2 =>
        if validSecond b b1 && isCont b2 then
          (pyDecodeUtf8Fuel ignore fuel rest2).map (fun cs =>
            ((b.toNat - 0xE0) * 0x1000 + (b1.toNat - 0x80) * 0x40 +
              (b2.toNat - 0x80)) :: cs)
        else if ignore then
          pyDecodeUtf8Fuel ignore fuel (b1 :: b2 :: rest2)
        else none
      | [b1] => if ignore then pyDecodeUtf8Fuel ignore fuel [b1] else none
      | [] => if ignore then some [] else none
    else if b < 0xF5 then
      match rest with
      | b1 :: b2 :: b3 :: rest3 =>
        if validSecond b b1 && isCont b2 && isCont b3 then
          (pyDecodeUtf8Fuel ignore fuel rest3).map (fun cs =>
            ((b.toNat - 0xF0) * 0x40000 + (b1.toNat - 0x80) * 0x1000 +
              (b2.toNat - 0x80) * 0x40 + (b3.toNat - 0x80)) :: cs)
        else if ignore then
          pyDecodeUtf8Fuel ignore fuel (b1 :: b2 :: b3 :: rest3)
        else none
      | [b1, b2] =>
        if ignore then pyDecodeUtf8Fuel ignore fuel [b1, b2] else none
      | [b1] => if ignore then pyDecodeUtf8Fuel ignore fuel [b1] else none
      | [] => if ignore then some [] else none
    else
      -- lead byte 0xF5..0xFF is never valid
      if ignore then pyDecodeUtf8Fuel ignore fuel rest else none

/-- CPython's `bytes.decode()`: run the decoder loop with enough fuel
for the whole byte list. -/
def pyDecodeUtf8 (ignore : Bool) (bs : List UInt8) : Option (List Nat) :=
  pyDecodeUtf8Fuel ignore bs.length bs

/-- `GET /containers/{name}/logs`: fetch `c.logs(tail=tail)` from the
runtime and decode it with `errors="ignore"`.  `tailParam` is the
query parameter (`none` = absent, in which case FastAPI supplies the
declared default `200`); `getLogs` is the runtime's byte stream as a
function of the tail argument. -/
def container_logs (getLogs : Int → List UInt8) (tailParam : Option Int) :
    Option (List Nat) :=
  pyDecodeUtf8 true (getLogs (tailParam.getD 200))

end DockTiles

/-! ## Basic string lemmas -/

namespace DockTiles

theorem string_data_append (s t : String) : (s ++ t).data = s.data ++ t.data := by
  cases s; cases t; rfl

theorem string_mk_data (s : String) : String.mk s.data = s := by
  cases s; rfl

/-- The token extracted from a well-formed bearer header is everything
after the first space. -/
theorem afterFirstSpace_bearer (pre t : String)
    (hpre : pre.data.dropWhile (fun c => c ≠ ' ') = [' ']) :
    afterFirstSpace (pre ++ t) = t := by
  unfold afterFirstSpace
  rw [string_data_append, List.dropWhile_append]
  simp only [hpre]
  simp [string_mk_data]

/-! ## Access-gate lemmas -/

/-- A header built from a scheme prefix that lowercases to `"bearer "`
passes the scheme check. -/
theorem pyStartsWith_bearer (pre t : String)
    (h : pre.data.map Char.toLower = "bearer ".data) :
    pyStartsWith "bearer " (pyLower (pre ++ t)) = true := by
  show ("bearer ".data.isPrefixOf ((pre ++ t).data.map Char.toLower)) = true
  rw [string_data_append, List.map_append, h, List.isPrefixOf_iff_prefix]
  exact List.prefix_append _ _

/-- With auth enabled (non-empty secret), a header of the form
`<bearer-cased> <token>` is admitted exactly when the token equals the
secret, and rejected with 403 otherwise. -/
theorem require_auth_bearer (pre s t : String) (hs : s ≠ "")
    (hlow : pre.data.map Char.toLower = "bearer ".data)
    (hdrop : pre.data.dropWhile (fun c => c ≠ ' ') = [' ']) :
    require_auth (some s) (some (pre ++ t)) =
      if t = s then .ok () else .error ⟨403, "Invalid token"⟩ := by
  have hne : pre ++ t ≠ "" := by
    intro h
    have := congrArg String.data h
    rw [string_data_append] at this
    have hlen := congrArg List.length this
    have hlen2 := congrArg List.length hlow
    simp at hlen hlen2
    omega
  have hstart := pyStartsWith_bearer pre t hlow
  have htok := afterFirstSpace_bearer pre t hdrop
  simp only [require_auth, if_neg hs, hne, hstart, htok]
  by_cases ht : t = s <;> simp [ht]

/-- Claim C3: the Access Gate.  With the secret unset, every request is
admitted; with a (non-empty) secret set, a missing `Authorization`
header is rejected 401 "unauthenticated", a bearer header whose token
differs from the secret is rejected 403 "forbidden", and a bearer
header whose token equals the secret exactly is admitted. -/
theorem require_auth_access_gate (s t : String) (header : Option String) :
    require_auth none header = .ok () ∧
    (s ≠ "" → require_auth (some s) none =
      .error ⟨401, "Missing bearer token"⟩) ∧
    (s ≠ "" → t ≠ s → require_auth (some s) (some ("Bearer " ++ t)) =
      .error ⟨403, "Invalid token"⟩) ∧
    (s ≠ "" → require_auth (some s) (some ("Bearer " ++ s)) = .ok ()) := by
  refine ⟨rfl, fun hs => by simp [require_auth, hs], fun hs ht => ?_, fun hs => ?_⟩
  · rw [require_auth_bearer "Bearer " s t hs (by decide) (by decide), if_neg ht]
  · rw [require_auth_bearer "Bearer " s s hs (by decide) (by decide), if_pos rfl]

/-- Witness for C3 at the spec's own example: secret `"s3cret"`,
headers absent / `Bearer wrong` / `Bearer s3cret`. -/
theorem require_auth_access_gate_witness :
    require_auth (some "s3cret") none = .error ⟨401, "Missing bearer token"⟩ ∧
    require_auth (some "s3cret") (some "Bearer wrong") =
      .error ⟨403, "Invalid token"⟩ ∧
    require_auth (some "s3cret") (some "Bearer s3cret") = .ok () := by
  have h := require_auth_access_gate "s3cret" "wrong" none
  exact ⟨h.2.1 (by decide), h.2.2.1 (by decide) (by decide),
    h.2.2.2 (by decide)⟩

/-- Claim C10: the scheme prefix is matched case-insensitively and the
token is the entire remainder after the first space; a present header
without a bearer scheme (e.g. `Basic ...`) is a 401, not a 403. -/
theorem require_auth_bearer_scheme (s t v : String) (hs : s ≠ "") :
    require_auth (some s) (some ("bearer " ++ s)) = .ok () ∧
    require_auth (some s) (some ("BEARER " ++ s)) = .ok () ∧
    (require_auth (some s) (some ("Bearer " ++ t)) = .ok () ↔ t = s) ∧
    require_auth (some s) (some ("Basic " ++ v)) =
      .error ⟨401, "Missing bearer token"⟩ := by
  refine ⟨?_, ?_, ?_, ?_⟩
  · rw [require_auth_bearer "bearer " s s hs (by decide) (by decide), if_pos rfl]
  · rw [require_auth_bearer "BEARER " s s hs (by decide) (by decide), if_pos rfl]
  · rw [require_auth_bearer "Bearer " s t hs (by decide) (by decide)]
    by_cases ht : t = s <;> simp [ht]
  · have hne : "Basic " ++ v ≠ "" := by
      intro h
      have := congrArg String.data h
      rw [string_data_append] at this
      simp at this
    have hstart : pyStartsWith "bearer " (pyLower ("Basic " ++ v)) = false := by
      show ("bearer ".data.isPrefixOf
        (("Basic " ++ v).data.map Char.toLower)) = false
      rw [string_data_append, List.map_append]
      have hbasic : List.map Char.toLower "Basic ".data =
          ['b', 'a', 's', 'i', 'c', ' '] := by decide
      rw [hbasic]
      show (['b', 'e', 'a', 'r', 'e', 'r', ' '].isPrefixOf
        ('b' :: 'a' :: 's' :: 'i' :: 'c' :: ' ' ::
          List.map Char.toLower v.data)) = false
      simp [List.isPrefixOf]
    simp [require_auth, hs, hne, hstart]

/-- Witness for C10 at secret `"s3cret"`, token `"wrong"`, basic
credentials `"dXNlcg=="`. -/
theorem require_auth_bearer_scheme_witness :
    require_auth (some "s3cret") (some "bearer s3cret") = .ok () ∧
    require_auth (some "s3cret") (some "BEARER s3cret") = .ok () ∧
    require_auth (some "s3cret") (some "Basic dXNlcg==") =
      .error ⟨401, "Missing bearer token"⟩ := by
  have h := require_auth_bearer_scheme "s3cret" "wrong" "dXNlcg==" (by decide)
  exact ⟨h.1, h.2.1, h.2.2.2⟩

/-! ## Action endpoints and the `ALLOW_ACTIONS` flag -/

/-- Counterexample to claim C2 as stated: with the auth secret set to
`"s3cret"`, actions disabled, and no `Authorization` header, the start
endpoint responds 401 "Missing bearer token" — not "forbidden" (403) —
because the auth dependency runs before the `ALLOW_ACTIONS` check.
(The runtime is still never invoked.) -/
theorem start_container_disabled_401_counterexample :
    start_container (some "s3cret") none false none =
      (.httpError ⟨401, "Missing bearer token"⟩, false) ∧
    (ActionResponse.httpError ⟨401, "Missing bearer token"⟩ ≠
      ActionResponse.httpError ⟨403, "Actions disabled"⟩) := by
  decide

/-- Claim C2 as amended: with actions disabled, the runtime's
start/stop/restart is never invoked for any request, and every request
that passes the access gate is rejected 403 "Actions disabled"
(requests failing the gate get the gate's own 401/403 instead). -/
theorem actions_disabled_gate (secret header : Option String)
    (runtime : Option RuntimeErr) :
    (start_container secret header false runtime).2 = false ∧
    (stop_container secret header false runtime).2 = false ∧
    (restart_container secret header false runtime).2 = false ∧
    (require_auth secret header = .ok () →
      start_container secret header false runtime =
        (.httpError ⟨403, "Actions disabled"⟩, false) ∧
      stop_container secret header false runtime =
        (.httpError ⟨403, "Actions disabled"⟩, false) ∧
      restart_container secret header false runtime =
        (.httpError ⟨403, "Actions disabled"⟩, false)) := by
  unfold start_container stop_container restart_container
  cases h : require_auth secret header <;> simp

/-- Witness for the amended C2: auth disabled (secret unset), actions
disabled, no header — all three endpoints answer 403 "Actions
disabled" and do not invoke the runtime action. -/
theorem actions_disabled_gate_witness :
    start_container none none false none =
      (.httpError ⟨403, "Actions disabled"⟩, false) ∧
    stop_container none none false none =
      (.httpError ⟨403, "Actions disabled"⟩, false) ∧
    restart_container none none false none =
      (.httpError ⟨403, "Actions disabled"⟩, false) :=
  (actions_disabled_gate none none none).2.2.2 (by decide)

/-! ## View-model image field -/

/-- Counterexample to claim C4 as stated: a container whose
`Config.Image` key is present but blank yields a blank DTO image field
even though the image has tags — `dict.get("Image", fallback)` falls
back only when the key is absent, not when its value is blank. -/
theorem dto_image_blank_counterexample :
    (_dto ⟨"abc123def4", "web", "running", some "running", some "",
      ⟨["nginx:latest"], "sha256:abc123def4"⟩, []⟩).image = "" ∧
    ("" : String) ≠ "nginx:latest" := by
  decide

/-- Claim C4 as amended: the DTO image field equals the configured
image reference whenever the `Config.Image` key is present (even when
its value is blank); when the key is absent it equals the first tag of
the container's image, or the image's short digest if there are no
tags.  In particular it is non-blank provided the configured reference
is non-blank whenever present and the fallback values are non-blank. -/
theorem dto_image_fallback (c : ContainerRecord) :
    (∀ s, c.attrsConfigImage = some s → (_dto c).image = s) ∧
    (c.attrsConfigImage = none → ∀ t ts, c.image.tags = t :: ts →
      (_dto c).image = t) ∧
    (c.attrsConfigImage = none → c.image.tags = [] →
      (_dto c).image = c.image.short_id) ∧
    ((∀ s, c.attrsConfigImage = some s → s ≠ "") →
      (∀ t ts, c.image.tags = t :: ts → t ≠ "") →
      c.image.short_id ≠ "" →
      (_dto c).image ≠ "") := by
  refine ⟨?_, ?_, ?_, ?_⟩
  · intro s hs; simp [_dto, hs]
  · intro hnone t ts hts; simp [_dto, hnone, hts]
  · intro hnone hnil; simp [_dto, hnone, hnil]
  · intro hsome htag hshort
    cases hc : c.attrsConfigImage with
    | some s => simpa [_dto, hc] using hsome s hc
    | none =>
      cases ht : c.image.tags with
      | cons t ts => simpa [_dto, hc, ht] using htag t ts ht
      | nil => simpa [_dto, hc, ht] using hshort

/-- Witness for the amended C4 at the spec's own example: no configured
image reference, image tags `["nginx:latest"]` — the DTO image field is
`"nginx:latest"` and non-blank; with no tags either, it is the short
digest. -/
theorem dto_image_fallback_witness :
    (_dto ⟨"abc123def4", "web", "running", some "running", none,
      ⟨["nginx:latest"], "sha256:abc123def4"⟩, []⟩).image = "nginx:latest" ∧
    (_dto ⟨"abc123def4", "web", "running", some "running", none,
      ⟨[], "sha256:abc123def4"⟩, []⟩).image = "sha256:abc123def4" ∧
    (_dto ⟨"abc123def4", "web", "running", some "running", none,
      ⟨["nginx:latest"], "sha256:abc123def4"⟩, []⟩).image ≠ "" :=
  ⟨(dto_image_fallback _).2.1 rfl "nginx:latest" [] rfl,
   (dto_image_fallback _).2.2.1 rfl rfl,
   (dto_image_fallback _).2.2.2 (fun s hs => by simp at hs)
     (fun t ts hts => by simp at hts; simp [← hts.1]) (by decide)⟩

/-! ## Port extraction -/

/-- The inner binding loop appends exactly the valid bindings, in
order. -/
theorem inner_fold_eq_filterMap (bs : List RawBinding) (acc : List PortInfo) :
    bs.foldl
      (fun ps b =>
        match bindingPortInfo b with
        | none => ps
        | some p => ps ++ [p])
      acc = acc ++ bs.filterMap bindingPortInfo := by
  induction bs generalizing acc with
  | nil => simp
  | cons b bs ih =>
    cases hb : bindingPortInfo b <;>
      simp [List.foldl_cons, hb, ih, List.filterMap_cons]

/-- The whole extraction loop is the concatenation, in reported order,
of the valid bindings of each key. -/
theorem extract_eq_flatten (pm : PortMap) :
    _extract_published_ports pm =
      (pm.map (fun kv => (kv.2.getD []).filterMap bindingPortInfo)).flatten := by
  have hfun : (fun (ports : List PortInfo)
        (kv : String × Option (List RawBinding)) =>
      match kv.2 with
      | none => ports
      | some [] => ports
      | some bs =>
        bs.foldl
          (fun ps b =>
            match bindingPortInfo b with
            | none => ps
            | some p => ps ++ [p])
          ports) =
      (fun ports kv => ports ++ (kv.2.getD []).filterMap bindingPortInfo) := by
    funext ports kv
    obtain ⟨k, obs⟩ := kv
    cases obs with
    | none => simp
    | some bs0 =>
      cases bs0 with
      | nil => simp
      | cons b bs => simpa using inner_fold_eq_filterMap (b :: bs) ports
  have hmain : ∀ (pm : PortMap) (acc : List PortInfo),
      pm.foldl
        (fun ports kv => ports ++ (kv.2.getD []).filterMap bindingPortInfo)
        acc =
      acc ++ (pm.map (fun kv => (kv.2.getD []).filterMap bindingPortInfo)).flatten := by
    intro pm
    induction pm with
    | nil => simp
    | cons kv pm ih => intro acc; simp [ih]
  show List.foldl
      (fun ports kv =>
        match kv.2 with
        | none => ports
        | some [] => ports
        | some bs =>
          bs.foldl
            (fun ps b =>
              match bindingPortInfo b with
              | none => ps
              | some p => ps ++ [p])
            ports)
      [] pm = _
  rw [hfun]
  simpa using hmain pm []

/-- Claim C6: port extraction skips keys whose binding list is absent
or empty, emits one `PortInfo` per remaining valid binding — host
defaulting to `"127.0.0.1"` when `HostIp` is unset, port parsed by
Python `int` — and preserves the runtime's reported order of keys and
of bindings within a key, duplicates included: the result is exactly
the in-order concatenation of each key's valid bindings. -/
theorem extract_published_ports_spec (pm : PortMap) :
    _extract_published_ports pm =
      (pm.map (fun kv =>
        (kv.2.getD []).filterMap (fun b =>
          match b.hostPort with
          | none => none
          | some s =>
            match pyInt s with
            | none => none
            | some port => some ⟨b.hostIp.getD "127.0.0.1", port⟩))).flatten :=
  extract_eq_flatten pm

/-- Claim C5: a binding whose host port is missing or not a valid
integer is skipped on its own — removing it from its key's binding
list leaves the extraction result unchanged, wherever in the map it
sits; the other entries' results are unaffected. -/
theorem extract_skips_invalid_binding (pm1 pm2 : PortMap) (key : String)
    (bs1 bs2 : List RawBinding) (b : RawBinding)
    (hb : bindingPortInfo b = none) :
    _extract_published_ports (pm1 ++ (key, some (bs1 ++ b :: bs2)) :: pm2) =
      _extract_published_ports (pm1 ++ (key, some (bs1 ++ bs2)) :: pm2) := by
  rw [extract_eq_flatten, extract_eq_flatten]
  simp [List.filterMap_append, List.filterMap_cons, hb]

/-- Witness for C5: a key carrying a non-integer host port `"abc"`
alongside a valid binding extracts exactly the valid binding. -/
theorem extract_skips_invalid_binding_witness :
    bindingPortInfo ⟨some "0.0.0.0", some "abc"⟩ = none ∧
    _extract_published_ports
      [("80/tcp", some [⟨some "0.0.0.0", some "abc"⟩, ⟨none, some "8080"⟩])] =
      _extract_published_ports [("80/tcp", some [⟨none, some "8080"⟩])] ∧
    _extract_published_ports [("80/tcp", some [⟨none, some "8080"⟩])] =
      [⟨"127.0.0.1", 8080⟩] :=
  ⟨by decide,
   extract_skips_invalid_binding [] [] "80/tcp" [] [⟨none, some "8080"⟩]
     ⟨some "0.0.0.0", some "abc"⟩ (by decide),
   by decide⟩

/-! ## Port heuristic -/

/-- The head of a flattened map comes from the first list element whose
image under `f` is non-empty, every earlier element mapping to `[]`. -/
theorem flatten_map_head {α β : Type} (f : α → List β) :
    ∀ (l : List α), (l.map f).flatten ≠ [] →
      ∃ pre h post, l = pre ++ h :: post ∧
        (∀ h2 ∈ pre, f h2 = []) ∧ f h ≠ [] ∧
        (l.map f).flatten.head? = (f h).head? := by
  intro l
  induction l with
  | nil => intro h; simp at h
  | cons a l ih =>
    intro hne
    by_cases ha : f a = []
    · have hfl : ((a :: l).map f).flatten = (l.map f).flatten := by
        simp [ha]
      rw [hfl] at hne
      obtain ⟨pre, h, post, hl, hpre, hh, hhead⟩ := ih hne
      exact ⟨a :: pre, h, post, by simp [hl], by
        intro h2 hh2
        rcases List.mem_cons.1 hh2 with rfl | hmem
        · exact ha
        · exact hpre h2 hmem, hh, by rw [hfl, hhead]⟩
    · refine ⟨[], a, l, by simp, by simp, ha, ?_⟩
      simp only [List.map_cons, List.flatten_cons]
      exact List.head?_append_of_ne_nil _ ha

/-- Claim C1: for a non-empty ports list, the heuristic's candidate
list is built preference-outer / ports-inner, and when it is non-empty
the heuristic returns its head — the first binding, in original port
order, matching the highest-priority preference entry that matches any
binding. -/
theorem find_first_http_port_preferred (hints : List String)
    (ports : List PortInfo) (hne : ports ≠ [])
    (hcand : (hints.map (fun hint =>
      ports.filter (fun p => toString p.port == hint))).flatten ≠ []) :
    _find_first_http_port hints ports =
      (hints.map (fun hint =>
        ports.filter (fun p => toString p.port == hint))).flatten.head? ∧
    ∃ pre h post, hints = pre ++ h :: post ∧
      (∀ h2 ∈ pre, ports.filter (fun p => toString p.port == h2) = []) ∧
      ports.filter (fun p => toString p.port == h) ≠ [] ∧
      _find_first_http_port hints ports =
        (ports.filter (fun p => toString p.port == h)).head? := by
  have hfind : _find_first_http_port hints ports =
      (hints.map (fun hint =>
        ports.filter (fun p => toString p.port == hint))).flatten.head? := by
    unfold _find_first_http_port
    rw [if_neg (by simpa [List.isEmpty_iff] using hne)]
    cases hc : (hints.map (fun hint =>
        ports.filter (fun p => toString p.port == hint))).flatten with
    | nil => exact absurd hc hcand
    | cons h t => simp
  obtain ⟨pre, h, post, hl, hpre, hh, hhead⟩ :=
    flatten_map_head (fun hint => ports.filter
      (fun p => toString p.port == hint)) hints hcand
  exact ⟨hfind, pre, h, post, hl, hpre, hh, by rw [hfind, hhead]⟩

/-- Witness for C1 at the spec's example: ports `[8000, 3000]` with
preferences `["8080", "3000"]` give the `3000` binding even though it
is not first in raw order. -/
theorem find_first_http_port_preferred_witness :
    _find_first_http_port ["8080", "3000"]
      [⟨"0.0.0.0", 8000⟩, ⟨"0.0.0.0", 3000⟩] = some ⟨"0.0.0.0", 3000⟩ := by
  rw [(find_first_http_port_preferred ["8080", "3000"]
    [⟨"0.0.0.0", 8000⟩, ⟨"0.0.0.0", 3000⟩] (by decide) (by decide)).1]
  decide

/-- Claim C7: the heuristic returns `none` exactly on the empty ports
list, and falls back to the first raw element when no binding's port
matches any preference entry. -/
theorem find_first_http_port_fallback (hints : List String)
    (ports : List PortInfo) :
    _find_first_http_port hints [] = none ∧
    (ports ≠ [] → (∀ p ∈ ports, ∀ h ∈ hints, toString p.port ≠ h) →
      _find_first_http_port hints ports = ports.head?) := by
  refine ⟨rfl, fun hne hnomatch => ?_⟩
  have hfl : (hints.map (fun hint =>
      ports.filter (fun p => toString p.port == hint))).flatten = [] := by
    simp only [List.flatten_eq_nil_iff, List.mem_map]
    rintro l ⟨hint, hhint, rfl⟩
    simp only [List.filter_eq_nil_iff]
    intro p hp
    simpa using hnomatch p hp hint hhint
  unfold _find_first_http_port
  rw [if_neg (by simpa [List.isEmpty_iff] using hne)]
  rw [hfl]

/-- Witness for C7 at the spec's example: ports `[22, 6379]` match no
entry of the default preference list, so the first raw binding is
returned; and the empty list gives `none`. -/
theorem find_first_http_port_fallback_witness :
    _find_first_http_port PORT_HINTS [] = none ∧
    _find_first_http_port PORT_HINTS
      [⟨"0.0.0.0", 22⟩, ⟨"0.0.0.0", 6379⟩] = some ⟨"0.0.0.0", 22⟩ := by
  refine ⟨(find_first_http_port_fallback PORT_HINTS []).1, ?_⟩
  rw [(find_first_http_port_fallback PORT_HINTS
    [⟨"0.0.0.0", 22⟩, ⟨"0.0.0.0", 6379⟩]).2 (by decide) (by decide)]
  rfl

/-- Claim C9: the heuristic returns `none` iff the ports list is empty,
and any binding it returns is an element of the input list — it never
fabricates or alters a binding. -/
theorem find_first_http_port_sound (hints : List String)
    (ports : List PortInfo) :
    (_find_first_http_port hints ports = none ↔ ports = []) ∧
    ∀ p, _find_first_http_port hints ports = some p → p ∈ ports := by
  unfold _find_first_http_port
  cases ports with
  | nil => simp
  | cons q qs =>
    rw [if_neg (by simp)]
    cases hc : (hints.map (fun hint =>
        (q :: qs).filter (fun p => toString p.port == hint))).flatten with
    | nil =>
      simp only [hc]
      refine ⟨by simp, ?_⟩
      rintro p hp
      simp only [List.head?_cons, Option.some.injEq] at hp
      simp [← hp]
    | cons h t =>
      simp only [hc]
      refine ⟨by simp, ?_⟩
      rintro p hp
      simp only [Option.some.injEq] at hp
      have hmem : h ∈ (hints.map (fun hint =>
          (q :: qs).filter (fun x => toString x.port == hint))).flatten := by
        rw [hc]; exact List.mem_cons_self _ _
      rw [List.mem_flatten] at hmem
      obtain ⟨l, hl, hpl⟩ := hmem
      rw [List.mem_map] at hl
      obtain ⟨hint, _, rfl⟩ := hl
      rw [← hp]
      exact List.mem_of_mem_filter hpl

/-- Witness for C9: on ports `[22]` the heuristic's result `22` is an
element of the input list. -/
theorem find_first_http_port_sound_witness :
    (⟨"0.0.0.0", 22⟩ : PortInfo) ∈ [(⟨"0.0.0.0", 22⟩ : PortInfo)] :=
  (find_first_http_port_sound PORT_HINTS [⟨"0.0.0.0", 22⟩]).2
    ⟨"0.0.0.0", 22⟩ (by decide)

/-! ## Logs decoding -/

/-- In ignore mode the decoder loop always succeeds, whatever the
fuel. -/
theorem pyDecodeUtf8Fuel_ignore_isSome :
    ∀ (fuel : Nat) (bs : List UInt8),
      (pyDecodeUtf8Fuel true fuel bs).isSome := by
  intro fuel
  induction fuel with
  | zero =>
    intro bs
    cases bs <;> simp [pyDecodeUtf8Fuel]
  | succ fuel ih =>
    intro bs
    cases bs with
    | nil => simp [pyDecodeUtf8Fuel]
    | cons b rest =>
      simp only [pyDecodeUtf8Fuel]
      repeat' split
      all_goals simp_all [Option.isSome_map, ih]

/-- In ignore mode the decoder always succeeds. -/
theorem pyDecodeUtf8_ignore_isSome (bs : List UInt8) :
    (pyDecodeUtf8 true bs).isSome :=
  pyDecodeUtf8Fuel_ignore_isSome bs.length bs

/-- Claim C8: the logs endpoint defaults the tail parameter to 200 when
it is absent, passes an explicit tail through unchanged, and the
`errors="ignore"` decode never fails — every successful runtime log
fetch yields text. -/
theorem container_logs_spec (getLogs : Int → List UInt8)
    (tailParam : Option Int) :
    (container_logs getLogs tailParam).isSome ∧
    (tailParam = none →
      container_logs getLogs tailParam = pyDecodeUtf8 true (getLogs 200)) ∧
    (∀ t, tailParam = some t →
      container_logs getLogs tailParam = pyDecodeUtf8 true (getLogs t)) := by
  refine ⟨pyDecodeUtf8_ignore_isSome _, fun h => ?_, fun t h => ?_⟩
  · rw [h]; rfl
  · rw [h]; rfl

/-- Witness for C8: a log stream with an invalid byte `0xFF` between
`"H"` and `"i"` decodes, with the tail parameter absent, to the
codepoints of `"Hi"` at tail 200. -/
theorem container_logs_spec_witness :
    container_logs (fun t => if t = 200 then [0x48, 0xFF, 0x69] else [])
      none = some [0x48, 0x69] ∧
    (container_logs (fun t => if t = 200 then [0x48, 0xFF, 0x69] else [])
      none).isSome := by
  have h := container_logs_spec
    (fun t => if t = 200 then [0x48, 0xFF, 0x69] else []) none
  refine ⟨?_, h.1⟩
  rw [h.2.1 rfl]
  decide

end DockTiles

